import Mathlib

/-!
Verification of the retry/backoff decision engine of the python-downstream
service (`src/python-downstream/main.py`).

The embedding follows the source:
- `RETRYABLE_STATUS_CODES` and `_is_server_error` (main.py lines 31-35);
- the tenacity-decorated `_call_upstream` (lines 38-49): up to
  `stop_after_attempt(3)` attempts, retrying when the attempt raised
  `httpx.ConnectError` or `httpx.ReadTimeout` (`retry_if_exception_type`) or
  returned a response satisfying `_is_server_error` (`retry_if_result`);
  with `reraise=True`, when the budget is exhausted the last exception is
  re-raised, while a retryable *result* makes tenacity raise `RetryError`;
  a non-retryable exception propagates immediately;
- the endpoint handler `call_upstream` (lines 52-109): calls the wrapper,
  then `resp.raise_for_status()` (raises `HTTPStatusError` on any non-2xx
  status) and `resp.json()` (raises on a body that is not valid JSON), with
  `except` branches for `RetryError`, `httpx.ConnectError`,
  `httpx.ReadTimeout` and `httpx.HTTPStatusError`; any other exception
  (e.g. a JSON decode failure or an uncaught transport error) propagates
  out of the handler, which we model by returning `none`.

An upstream behaviour is modelled as a function `u : Nat → AttemptOutcome`
giving the outcome of the n-th HTTP call (1-indexed); the mutable counter
`attempts[0]` of the source is the returned attempt count.
-/

/-- A transport-level failure raised by the HTTP client during one attempt:
`httpx.ConnectError` (carrying its message), `httpx.ReadTimeout`, or any
other transport error (neither of the two retryable exception types). -/
inductive TransportErr where
  | connectError (msg : String)
  | readTimeout
  | otherError
deriving DecidableEq, Repr

/-- An upstream HTTP response: its status code, and `some payload` when the
body parses as JSON (the parsed value kept abstract as a string), `none`
when `resp.json()` would raise. -/
structure Response where
  status_code : Nat
  jsonBody : Option String
deriving DecidableEq, Repr

/-- The outcome of one call to `http_client.get(...)` inside
`_call_upstream`: either a response was received or a transport error was
raised. -/
inductive AttemptOutcome where
  | ok (r : Response)
  | raise (e : TransportErr)
deriving DecidableEq, Repr

/-- What the tenacity-wrapped `_call_upstream` delivers to the handler:
either a returned response, or an exception (`RetryError` from tenacity,
or a re-raised / propagated transport error). -/
inductive CallRes where
  | result (r : Response)
  | excRetryError
  | excConnectError (msg : String)
  | excReadTimeout
  | excOtherTransport
deriving DecidableEq, Repr

/-- main.py line 31: `RETRYABLE_STATUS_CODES = {500, 502, 503, 504}`. -/
def RETRYABLE_STATUS_CODES : List Nat := [500, 502, 503, 504]

/-- main.py lines 34-35: membership of the status code in
`RETRYABLE_STATUS_CODES`. -/
def _is_server_error (r : Response) : Bool :=
  RETRYABLE_STATUS_CODES.contains r.status_code

/-- The retry predicate of the `@retry` decorator (main.py lines 41-44):
`retry_if_exception_type((httpx.ConnectError, httpx.ReadTimeout)) |
retry_if_result(_is_server_error)`. -/
def shouldRetry : AttemptOutcome → Bool
  | .ok r => _is_server_error r
  | .raise (.connectError _) => true
  | .raise .readTimeout => true
  | .raise .otherError => false

/-- The tenacity attempt loop. `made` is the number of attempts already
made (the counter `attempts[0]`), `fuel` the number of attempts the
`stop_after_attempt` budget still allows. Each round increments the
counter, performs the call, and consults the retry predicate; at budget
exhaustion (`fuel = 0` after the call) `reraise=True` re-raises the last
exception, while a retryable result raises `RetryError`; a non-retryable
exception propagates at once. The `fuel = 0` base case is unreachable from
the entry point below. -/
def tenacityGo (u : Nat → AttemptOutcome) : Nat → Nat → CallRes × Nat
  | made, 0 => (.excRetryError, made)
  | made, fuel + 1 =>
    let n := made + 1
    match u n with
    | .ok r =>
      if _is_server_error r then
        if fuel = 0 then (.excRetryError, n) else tenacityGo u n fuel
      else (.result r, n)
    | .raise (.connectError m) =>
      if fuel = 0 then (.excConnectError m, n) else tenacityGo u n fuel
    | .raise .readTimeout =>
      if fuel = 0 then (.excReadTimeout, n) else tenacityGo u n fuel
    | .raise .otherError => (.excOtherTransport, n)

/-- main.py lines 38-49: the decorated `_call_upstream` with
`stop_after_attempt(3)`, starting from a fresh `attempts = [0]` counter.
Returns the delivered result or exception together with the final value of
the attempt counter. -/
def call_upstream_wrapped (u : Nat → AttemptOutcome) : CallRes × Nat :=
  tenacityGo u 0 3

/-- The JSON body built by the handler. Fields in source order:
`source`, `upstream` (present only on success), `error` (present only on
failure), `elapsed_ms`, `status`, `retries`. -/
structure ResponseBody where
  source : String
  upstream : Option String
  error : Option String
  elapsed_ms : Nat
  status : String
  retries : Nat
deriving DecidableEq, Repr

/-- main.py lines 52-109: the `GET /` handler `call_upstream`. The elapsed
wall-clock measurement is not computable in the embedding, so the rounded
milliseconds value is an abstract parameter `elapsed`. `none` models an
exception escaping the handler (no `except` branch matches). Field order
in each body literal: source, upstream, error, elapsed_ms, status,
retries. -/
def call_upstream (u : Nat → AttemptOutcome) (elapsed : Nat) :
    Option ResponseBody :=
  match call_upstream_wrapped u with
  | (.result r, attempts) =>
    let retries := attempts - 1
    -- resp.raise_for_status(): httpx raises HTTPStatusError on any
    -- non-2xx status; caught at lines 91-100.
    if 200 ≤ r.status_code ∧ r.status_code < 300 then
      match r.jsonBody with
      | some payload =>
        some ⟨"python-downstream", some payload, none, elapsed, "ok",
          retries⟩
      | none => none   -- resp.json() raises; no except branch catches it
    else
      some ⟨"python-downstream", none,
        some ("Upstream returned " ++ toString r.status_code), elapsed,
        "upstream_error", retries⟩
  | (.excRetryError, attempts) =>
    some ⟨"python-downstream", none,
      some "Upstream returned server error after retries", elapsed,
      "upstream_error", attempts - 1⟩
  | (.excConnectError m, attempts) =>
    some ⟨"python-downstream", none, some ("Connection error: " ++ m),
      elapsed, "upstream_unreachable", attempts - 1⟩
  | (.excReadTimeout, attempts) =>
    some ⟨"python-downstream", none, some "Upstream read timeout (5s)",
      elapsed, "timeout", attempts - 1⟩
  | (.excOtherTransport, _) => none

/-- `True` when the string `needle` occurs as a contiguous substring of
`hay`; used to state that an error message mentions a status code. -/
def strContains (hay needle : String) : Bool :=
  hay.data.tails.any fun t => needle.data.isPrefixOf t

/-- On any upstream behaviour, the tenacity loop makes at least one and at
most `fuel` further attempts beyond the `made` already counted. -/
theorem tenacityGo_attempts (u : Nat → AttemptOutcome) :
    ∀ fuel made, 1 ≤ fuel →
      made + 1 ≤ (tenacityGo u made fuel).2 ∧
      (tenacityGo u made fuel).2 ≤ made + fuel := by
  intro fuel
  induction fuel with
  | zero => intro made h; omega
  | succ f ih =>
    intro made _
    by_cases hf : f = 0
    · subst hf
      cases hu : u (made + 1) with
      | ok r =>
        by_cases hs : _is_server_error r <;>
          simp [tenacityGo, hu, hs]
      | raise e =>
        cases e <;> simp [tenacityGo, hu]
    · have hih := ih (made + 1) (by omega)
      cases hu : u (made + 1) with
      | ok r =>
        by_cases hs : _is_server_error r
        · simp [tenacityGo, hu, hs, hf]
          omega
        · simp [tenacityGo, hu, hs, hf]
      | raise e =>
        cases e <;> simp [tenacityGo, hu, hf] <;> omega

/-- Whenever the handler produces a body, its `retries` field is the final
attempt count minus one (main.py lines 58, 62, 72, 82, 92). -/
theorem call_upstream_retries (u : Nat → AttemptOutcome) (elapsed : Nat)
    (body : ResponseBody) (h : call_upstream u elapsed = some body) :
    body.retries = (call_upstream_wrapped u).2 - 1 := by
  unfold call_upstream at h
  rcases hw : call_upstream_wrapped u with ⟨res, attempts⟩
  rw [hw] at h
  cases res with
  | result r =>
    simp only at h
    split at h
    · cases hj : r.jsonBody <;> rw [hj] at h <;> simp at h
      rw [← h]
    · simp at h
      rw [← h]
  | excRetryError => simp at h; rw [← h]
  | excConnectError m => simp at h; rw [← h]
  | excReadTimeout => simp at h; rw [← h]
  | excOtherTransport => simp at h

/-- C4: For every attempt sequence and every produced result,
attempts_made == retries + 1, retries is non-negative, and attempts_made
lies in [1, max_attempts] (with max_attempts = 3). -/
theorem attempts_invariant (u : Nat → AttemptOutcome) (elapsed : Nat) :
    1 ≤ (call_upstream_wrapped u).2 ∧ (call_upstream_wrapped u).2 ≤ 3 ∧
    ∀ body, call_upstream u elapsed = some body →
      body.retries + 1 = (call_upstream_wrapped u).2 := by
  have hb : 1 ≤ (call_upstream_wrapped u).2 ∧
      (call_upstream_wrapped u).2 ≤ 3 := by
    have h0 := tenacityGo_attempts u 3 0 (by omega)
    simpa [call_upstream_wrapped] using h0
  refine ⟨hb.1, hb.2, ?_⟩
  intro body hbody
  have hr := call_upstream_retries u elapsed body hbody
  omega

/-- Constant upstream behaviour: every attempt succeeds with a 200 JSON
response. -/
def uAlwaysOk : Nat → AttemptOutcome := fun _ => .ok ⟨200, some "hi"⟩

/-- Witness for C4 at the always-succeeding upstream. -/
theorem attempts_invariant_witness :
    1 ≤ (call_upstream_wrapped uAlwaysOk).2 ∧
    (call_upstream_wrapped uAlwaysOk).2 ≤ 3 ∧
    (⟨"python-downstream", some "hi", none, 7, "ok", 0⟩ :
        ResponseBody).retries + 1 = (call_upstream_wrapped uAlwaysOk).2 := by
  obtain ⟨a, b, c⟩ := attempts_invariant uAlwaysOk 7
  exact ⟨a, b, c _ (by decide)⟩

/-- The upstream behaviour of the C6 scenario: ReadTimeout, ReadTimeout,
then 200 with JSON body `\x7b"msg":"ok"\x7d`. -/
def uC6 : Nat → AttemptOutcome := fun n =>
  if n ≤ 2 then .raise .readTimeout
  else .ok ⟨200, some "\x7b\"msg\":\"ok\"\x7d"⟩

/-- C6: ReadTimeout failures are retryable: for the upstream sequence
[ReadTimeout, ReadTimeout, 200 `\x7b"msg":"ok"\x7d`] under max_attempts=3
the call returns the upstream payload with status "ok", attempts_made=3
and retries=2. -/
theorem read_timeout_retried_scenario :
    call_upstream uC6 0 =
      some ⟨"python-downstream", some "\x7b\"msg\":\"ok\"\x7d", none, 0,
        "ok", 2⟩ ∧
    (call_upstream_wrapped uC6).2 = 3 := by decide

/-- C1: When all three attempts are classified retryable (budget
exhausted with the last attempt still a retryable failure), the final
status reflects the nature of the last attempt: a final ConnectError gives
"upstream_unreachable", a final ReadTimeout gives "timeout", and a final
retryable-status response gives "upstream_error"; attempts_made = 3. -/
theorem exhausted_budget_reflects_last_failure
    (u : Nat → AttemptOutcome) (elapsed : Nat)
    (h1 : shouldRetry (u 1) = true) (h2 : shouldRetry (u 2) = true)
    (h3 : shouldRetry (u 3) = true) :
    ∃ body, call_upstream u elapsed = some body ∧ body.retries = 2 ∧
      body.status = match u 3 with
        | .raise (.connectError _) => "upstream_unreachable"
        | .raise .readTimeout => "timeout"
        | _ => "upstream_error" := by
  rcases hu1 : u 1 with r1 | (⟨m1⟩ | _ | _) <;>
    rcases hu2 : u 2 with r2 | (⟨m2⟩ | _ | _) <;>
    rcases hu3 : u 3 with r3 | (⟨m3⟩ | _ | _) <;>
    simp_all [shouldRetry, call_upstream, call_upstream_wrapped,
      tenacityGo]

/-- Constant upstream behaviour: every attempt raises ConnectError. -/
def uAllConnect : Nat → AttemptOutcome :=
  fun _ => .raise (.connectError "refused")

/-- Witness for C1: three consecutive ConnectError attempts end with
status "upstream_unreachable". -/
theorem exhausted_budget_reflects_last_failure_witness :
    ∃ body, call_upstream uAllConnect 0 = some body ∧ body.retries = 2 ∧
      body.status = match uAllConnect 3 with
        | .raise (.connectError _) => "upstream_unreachable"
        | .raise .readTimeout => "timeout"
        | _ => "upstream_error" :=
  exhausted_budget_reflects_last_failure uAllConnect 0
    (by decide) (by decide) (by decide)

/-- C2: An attempt returning a response whose status is not in the
retryable set terminates the call immediately with status
"upstream_error" (for 4xx/5xx codes) and no further attempt, whatever the
remaining budget; on the first attempt this gives retries = 0. -/
theorem non_retryable_status_terminates_immediately
    (u : Nat → AttemptOutcome) (elapsed : Nat) (k : Nat)
    (hk1 : 1 ≤ k) (hk3 : k ≤ 3)
    (hpre : ∀ j, 1 ≤ j → j < k → shouldRetry (u j) = true)
    (r : Response) (hu : u k = .ok r)
    (hcode : 400 ≤ r.status_code) (hcode6 : r.status_code < 600)
    (hnr : _is_server_error r = false) :
    call_upstream_wrapped u = (.result r, k) ∧
    ∃ body, call_upstream u elapsed = some body ∧
      body.status = "upstream_error" ∧ body.retries = k - 1 := by
  have hlt : ¬ (200 ≤ r.status_code ∧ r.status_code < 300) := by omega
  have hw : call_upstream_wrapped u = (.result r, k) := by
    interval_cases k
    · simp_all [call_upstream_wrapped, tenacityGo]
    · have h1 := hpre 1 (by omega) (by omega)
      rcases hu1 : u 1 with r1 | (⟨m1⟩ | _ | _) <;>
        simp_all [shouldRetry, call_upstream_wrapped, tenacityGo]
    · have h1 := hpre 1 (by omega) (by omega)
      have h2 := hpre 2 (by omega) (by omega)
      rcases hu1 : u 1 with r1 | (⟨m1⟩ | _ | _) <;>
        rcases hu2 : u 2 with r2 | (⟨m2⟩ | _ | _) <;>
        simp_all [shouldRetry, call_upstream_wrapped, tenacityGo]
  have hh : call_upstream u elapsed =
      some ⟨"python-downstream", none,
        some ("Upstream returned " ++ toString r.status_code), elapsed,
        "upstream_error", k - 1⟩ := by
    unfold call_upstream
    rw [hw]
    simp [hlt]
  exact ⟨hw, _, hh, rfl, rfl⟩

/-- Constant upstream behaviour: every attempt returns 404. -/
def uAll404 : Nat → AttemptOutcome := fun _ => .ok ⟨404, none⟩

/-- Witness for C2: a 404 on the first attempt is terminal with
retries = 0. -/
theorem non_retryable_status_terminates_immediately_witness :
    call_upstream_wrapped uAll404 = (.result ⟨404, none⟩, 1) ∧
    ∃ body, call_upstream uAll404 0 = some body ∧
      body.status = "upstream_error" ∧ body.retries = 1 - 1 :=
  non_retryable_status_terminates_immediately uAll404 0 1
    (by decide) (by decide) (by omega) ⟨404, none⟩ rfl
    (by decide) (by decide) (by decide)

/-- Constant upstream behaviour: a 200 response whose body is not valid
JSON. -/
def uNonJsonOk : Nat → AttemptOutcome := fun _ => .ok ⟨200, none⟩

/-- C3 counterexample: on a 200 response with a non-JSON body the handler
does not return a structured result — `resp.json()` raises and no except
branch catches it (modelled as `none`). -/
theorem nonjson_success_escapes_handler :
    call_upstream uNonJsonOk 0 = none := by decide

/-- The final delivered result of the tenacity loop is determined by the
outcome of the last attempt actually made. -/
theorem tenacityGo_final (u : Nat → AttemptOutcome) :
    ∀ fuel made, 1 ≤ fuel →
      (match tenacityGo u made fuel with
       | (.result r, n) => u n = .ok r
       | (.excRetryError, n) =>
           ∃ r, u n = .ok r ∧ _is_server_error r = true
       | (.excConnectError m, n) => u n = .raise (.connectError m)
       | (.excReadTimeout, n) => u n = .raise .readTimeout
       | (.excOtherTransport, n) => u n = .raise .otherError) := by
  intro fuel
  induction fuel with
  | zero => intro made h; omega
  | succ f ih =>
    intro made _
    by_cases hf : f = 0
    · subst hf
      cases hu : u (made + 1) with
      | ok r =>
        by_cases hs : _is_server_error r = true
        · simp only [tenacityGo, hu, hs, if_true, if_pos rfl]
          exact ⟨r, rfl, hs⟩
        · simp [tenacityGo, hu, hs]
      | raise e =>
        cases e <;> simp [tenacityGo, hu]
    · have hih := ih (made + 1) (by omega)
      cases hu : u (made + 1) with
      | ok r =>
        by_cases hs : _is_server_error r = true
        · simpa [tenacityGo, hu, hs, hf] using hih
        · simp [tenacityGo, hu, hs]
      | raise e =>
        cases e with
        | connectError m => simpa [tenacityGo, hu, hf] using hih
        | readTimeout => simpa [tenacityGo, hu, hf] using hih
        | otherError => simp [tenacityGo, hu]

/-- The attempt outcomes on which the handler recovers the failure
locally: the two retryable transport errors, any HTTP response outside
the 2xx range, and a 2xx response whose body is valid JSON. -/
def recoverable : AttemptOutcome → Bool
  | .ok r =>
    !(decide (200 ≤ r.status_code) && decide (r.status_code < 300)) ||
      r.jsonBody.isSome
  | .raise (.connectError _) => true
  | .raise .readTimeout => true
  | .raise .otherError => false

/-- C3 amended: when every attempt outcome is recoverable (no
other-transport error and no 2xx with a non-JSON body), the handler
always returns a structured result. -/
theorem recoverable_behaviours_return_structured_result
    (u : Nat → AttemptOutcome) (elapsed : Nat)
    (h : ∀ n, 1 ≤ n → n ≤ 3 → recoverable (u n) = true) :
    (call_upstream u elapsed).isSome = true := by
  have hfin := tenacityGo_final u 3 0 (by omega)
  have hb := tenacityGo_attempts u 3 0 (by omega)
  unfold call_upstream
  rcases hw : call_upstream_wrapped u with ⟨res, attempts⟩
  rw [call_upstream_wrapped] at hw
  rw [hw] at hfin hb
  have hrec := h attempts (by omega) (by omega)
  cases res with
  | result r =>
    simp only at hfin
    rw [hfin] at hrec
    simp only [recoverable] at hrec
    by_cases hc : 200 ≤ r.status_code ∧ r.status_code < 300
    · have hj : r.jsonBody.isSome = true := by
        simp at hrec
        rcases hrec with h' | h'
        · omega
        · exact h'
      rcases hjb : r.jsonBody with _ | payload
      · rw [hjb] at hj; simp at hj
      · simp [hc, hjb]
    · simp [hc]
  | excRetryError => simp
  | excConnectError m => simp
  | excReadTimeout => simp
  | excOtherTransport =>
    simp only at hfin
    rw [hfin] at hrec
    simp [recoverable] at hrec

/-- Witness for the amended C3 at the always-ConnectError upstream. -/
theorem recoverable_behaviours_return_structured_result_witness :
    (call_upstream uAllConnect 0).isSome = true :=
  recoverable_behaviours_return_structured_result uAllConnect 0
    (fun n _ _ => by simp [uAllConnect, recoverable])

/-- C5: The retryable status set is exactly \x7b500, 502, 503, 504\x7d,
and a response in this set followed by a 2xx JSON success completes with
status "ok" and retries = 1 after exactly two upstream calls. -/
theorem retryable_set_and_single_retry
    (u : Nat → AttemptOutcome) (elapsed : Nat) :
    (∀ r : Response, _is_server_error r = true ↔
      (r.status_code = 500 ∨ r.status_code = 502 ∨ r.status_code = 503 ∨
        r.status_code = 504)) ∧
    (∀ r code2 payload, u 1 = .ok r → _is_server_error r = true →
      u 2 = .ok ⟨code2, some payload⟩ → 200 ≤ code2 → code2 < 300 →
      call_upstream u elapsed =
        some ⟨"python-downstream", some payload, none, elapsed, "ok",
          1⟩ ∧
      (call_upstream_wrapped u).2 = 2) := by
  constructor
  · intro r
    simp [_is_server_error, RETRYABLE_STATUS_CODES]
  · intro r code2 payload hu1 hs hu2 hlo hhi
    have hns : _is_server_error ⟨code2, some payload⟩ = false := by
      simp only [_is_server_error, RETRYABLE_STATUS_CODES]
      simp
      omega
    have hw : call_upstream_wrapped u =
        (.result ⟨code2, some payload⟩, 2) := by
      simp [call_upstream_wrapped, tenacityGo, hu1, hs, hu2, hns]
    refine ⟨?_, by rw [hw]⟩
    unfold call_upstream
    rw [hw]
    simp [hlo, hhi]

/-- Upstream behaviour: 503 on the first attempt, then 200 with JSON. -/
def u503Then200 : Nat → AttemptOutcome := fun n =>
  if n = 1 then .ok ⟨503, none⟩ else .ok ⟨200, some "ok now"⟩

/-- Witness for C5: 503 then 200 gives status "ok" with one retry. -/
theorem retryable_set_and_single_retry_witness :
    call_upstream u503Then200 0 =
      some ⟨"python-downstream", some "ok now", none, 0, "ok", 1⟩ ∧
    (call_upstream_wrapped u503Then200).2 = 2 :=
  (retryable_set_and_single_retry u503Then200 0).2 ⟨503, none⟩ 200
    "ok now" (by decide) (by decide) (by decide) (by decide) (by decide)

/-- C7: Every body produced by the endpoint has source
"python-downstream", carries the given elapsed value, a status among
"ok" / "upstream_unreachable" / "timeout" / "upstream_error" mapping the
final outcome exactly (re-raised ConnectError → "upstream_unreachable",
re-raised ReadTimeout → "timeout", RetryError → "upstream_error", a
returned response → "ok" iff its status code is 2xx), and the `upstream`
key is present exactly when status is "ok" while `error` is present
exactly otherwise. -/
theorem response_shape_and_status_mapping
    (u : Nat → AttemptOutcome) (elapsed : Nat) (body : ResponseBody)
    (h : call_upstream u elapsed = some body) :
    body.source = "python-downstream" ∧ body.elapsed_ms = elapsed ∧
    (body.status = "ok" ∨ body.status = "upstream_unreachable" ∨
      body.status = "timeout" ∨ body.status = "upstream_error") ∧
    (body.upstream.isSome = true ↔ body.status = "ok") ∧
    (body.error.isSome = true ↔ body.status ≠ "ok") ∧
    (∀ m, (call_upstream_wrapped u).1 = .excConnectError m →
      body.status = "upstream_unreachable") ∧
    ((call_upstream_wrapped u).1 = .excReadTimeout →
      body.status = "timeout") ∧
    ((call_upstream_wrapped u).1 = .excRetryError →
      body.status = "upstream_error") ∧
    (∀ r, (call_upstream_wrapped u).1 = .result r →
      (body.status = "ok" ↔
        200 ≤ r.status_code ∧ r.status_code < 300)) := by
  unfold call_upstream at h
  rcases hw : call_upstream_wrapped u with ⟨res, attempts⟩
  rw [hw] at h
  cases res with
  | result r =>
    simp only at h
    by_cases hc : 200 ≤ r.status_code ∧ r.status_code < 300
    · rcases hjb : r.jsonBody with _ | payload <;> rw [hjb] at h
      · rw [if_pos hc] at h; simp at h
      · rw [if_pos hc] at h
        simp only [Option.some.injEq] at h
        subst h
        refine ⟨rfl, rfl, by simp, by simp, by simp, ?_, ?_, ?_, ?_⟩
        · intro m hh; simp at hh
        · intro hh; simp at hh
        · intro hh; simp at hh
        · intro r2 hh
          simp only [CallRes.result.injEq] at hh
          subst hh
          simpa using hc
    · rw [if_neg hc] at h
      simp only [Option.some.injEq] at h
      subst h
      refine ⟨rfl, rfl, by simp, by simp, by simp, ?_, ?_, ?_, ?_⟩
      · intro m hh; simp at hh
      · intro hh; simp at hh
      · intro hh; simp at hh
      · intro r2 hh
        simp only [CallRes.result.injEq] at hh
        subst hh
        simpa using hc
  | excRetryError =>
    simp only [Option.some.injEq] at h
    subst h
    refine ⟨rfl, rfl, by simp, by simp, by simp, ?_, ?_, ?_, ?_⟩
    · intro m hh; simp at hh
    · intro hh; simp at hh
    · intro hh; rfl
    · intro r2 hh; simp at hh
  | excConnectError m =>
    simp only [Option.some.injEq] at h
    subst h
    refine ⟨rfl, rfl, by simp, by simp, by simp, ?_, ?_, ?_, ?_⟩
    · intro m2 hh; rfl
    · intro hh; simp at hh
    · intro hh; simp at hh
    · intro r2 hh; simp at hh
  | excReadTimeout =>
    simp only [Option.some.injEq] at h
    subst h
    refine ⟨rfl, rfl, by simp, by simp, by simp, ?_, ?_, ?_, ?_⟩
    · intro m2 hh; simp at hh
    · intro hh; rfl
    · intro hh; simp at hh
    · intro r2 hh; simp at hh
  | excOtherTransport => simp at h

/-- Witness for C7 at the always-succeeding upstream. -/
theorem response_shape_and_status_mapping_witness :
    (⟨"python-downstream", some "hi", none, 7, "ok", 0⟩ :
        ResponseBody).source = "python-downstream" ∧
    (⟨"python-downstream", some "hi", none, 7, "ok", 0⟩ :
        ResponseBody).elapsed_ms = 7 ∧
    ((⟨"python-downstream", some "hi", none, 7, "ok", 0⟩ :
        ResponseBody).status = "ok" ∨
      (⟨"python-downstream", some "hi", none, 7, "ok", 0⟩ :
        ResponseBody).status = "upstream_unreachable" ∨
      (⟨"python-downstream", some "hi", none, 7, "ok", 0⟩ :
        ResponseBody).status = "timeout" ∨
      (⟨"python-downstream", some "hi", none, 7, "ok", 0⟩ :
        ResponseBody).status = "upstream_error") ∧
    ((⟨"python-downstream", some "hi", none, 7, "ok", 0⟩ :
        ResponseBody).upstream.isSome = true ↔
      (⟨"python-downstream", some "hi", none, 7, "ok", 0⟩ :
        ResponseBody).status = "ok") ∧
    ((⟨"python-downstream", some "hi", none, 7, "ok", 0⟩ :
        ResponseBody).error.isSome = true ↔
      (⟨"python-downstream", some "hi", none, 7, "ok", 0⟩ :
        ResponseBody).status ≠ "ok") ∧
    (∀ m, (call_upstream_wrapped uAlwaysOk).1 = .excConnectError m →
      (⟨"python-downstream", some "hi", none, 7, "ok", 0⟩ :
        ResponseBody).status = "upstream_unreachable") ∧
    ((call_upstream_wrapped uAlwaysOk).1 = .excReadTimeout →
      (⟨"python-downstream", some "hi", none, 7, "ok", 0⟩ :
        ResponseBody).status = "timeout") ∧
    ((call_upstream_wrapped uAlwaysOk).1 = .excRetryError →
      (⟨"python-downstream", some "hi", none, 7, "ok", 0⟩ :
        ResponseBody).status = "upstream_error") ∧
    (∀ r, (call_upstream_wrapped uAlwaysOk).1 = .result r →
      ((⟨"python-downstream", some "hi", none, 7, "ok", 0⟩ :
          ResponseBody).status = "ok" ↔
        200 ≤ r.status_code ∧ r.status_code < 300)) :=
  response_shape_and_status_mapping uAlwaysOk 7
    ⟨"python-downstream", some "hi", none, 7, "ok", 0⟩ (by decide)

/-- Constant upstream behaviour: every attempt returns 503. -/
def uAll503 : Nat → AttemptOutcome := fun _ => .ok ⟨503, none⟩

/-- C8 counterexample: three 503 responses exhaust the retries and give
an UpstreamError whose message is the fixed string
"Upstream returned server error after retries", which does not mention
the offending status code 503. -/
theorem retry_exhausted_message_lacks_status_code :
    call_upstream uAll503 0 =
      some ⟨"python-downstream", none,
        some "Upstream returned server error after retries", 0,
        "upstream_error", 2⟩ ∧
    strContains "Upstream returned server error after retries" "503"
      = false := by decide

/-- `isPrefixOf` holds reflexively on character lists. -/
theorem isPrefixOf_self (l : List Char) : l.isPrefixOf l = true := by
  induction l with
  | nil => rfl
  | cons a as ih => simp [List.isPrefixOf, ih]

/-- A string contains its own suffix. -/
theorem strContains_append (a b : String) :
    strContains (a ++ b) b = true := by
  unfold strContains
  rw [List.any_eq_true]
  refine ⟨b.data, ?_, isPrefixOf_self b.data⟩
  rw [List.mem_tails]
  have hd : (a ++ b).data = a.data ++ b.data := by cases a; cases b; rfl
  rw [hd]
  exact List.suffix_append a.data b.data

/-- C8 amended: when the outcome is UpstreamError terminal on a
non-retryable status (the `raise_for_status` path), the error message is
"Upstream returned <code>" and mentions the status code; when it is
produced after exhausting retries on a retryable status (the RetryError
path), the message is the fixed generic string
"Upstream returned server error after retries". -/
theorem http_error_message_content
    (u : Nat → AttemptOutcome) (elapsed : Nat) (body : ResponseBody)
    (h : call_upstream u elapsed = some body) :
    (∀ r, (call_upstream_wrapped u).1 = .result r →
      400 ≤ r.status_code →
      body.error = some ("Upstream returned " ++ toString r.status_code) ∧
      strContains ("Upstream returned " ++ toString r.status_code)
        (toString r.status_code) = true) ∧
    ((call_upstream_wrapped u).1 = .excRetryError →
      body.error = some "Upstream returned server error after retries")
    := by
  unfold call_upstream at h
  rcases hw : call_upstream_wrapped u with ⟨res, attempts⟩
  rw [hw] at h
  cases res with
  | result r =>
    simp only at h
    constructor
    · intro r2 hh h4
      simp only [CallRes.result.injEq] at hh
      subst hh
      have hc : ¬ (200 ≤ r.status_code ∧ r.status_code < 300) := by
        omega
      rw [if_neg hc] at h
      simp only [Option.some.injEq] at h
      subst h
      exact ⟨rfl, strContains_append _ _⟩
    · intro hh; simp at hh
  | excRetryError =>
    simp only [Option.some.injEq] at h
    subst h
    exact ⟨fun r2 hh => by simp at hh, fun _ => rfl⟩
  | excConnectError m =>
    simp only [Option.some.injEq] at h
    subst h
    exact ⟨fun r2 hh => by simp at hh, fun hh => by simp at hh⟩
  | excReadTimeout =>
    simp only [Option.some.injEq] at h
    subst h
    exact ⟨fun r2 hh => by simp at hh, fun hh => by simp at hh⟩
  | excOtherTransport => simp at h

/-- Witness for the amended C8 at the constant-404 upstream. -/
theorem http_error_message_content_witness :
    (∀ r, (call_upstream_wrapped uAll404).1 = .result r →
      400 ≤ r.status_code →
      (⟨"python-downstream", none, some "Upstream returned 404", 0,
        "upstream_error", 0⟩ : ResponseBody).error =
        some ("Upstream returned " ++ toString r.status_code) ∧
      strContains ("Upstream returned " ++ toString r.status_code)
        (toString r.status_code) = true) ∧
    ((call_upstream_wrapped uAll404).1 = .excRetryError →
      (⟨"python-downstream", none, some "Upstream returned 404", 0,
        "upstream_error", 0⟩ : ResponseBody).error =
        some "Upstream returned server error after retries") :=
  http_error_message_content uAll404 0
    ⟨"python-downstream", none, some "Upstream returned 404", 0,
      "upstream_error", 0⟩ (by decide)

/-- C10: An other-transport failure (neither ConnectError nor
ReadTimeout) is not matched by the retry predicate, aborts the call after
the attempt that raised it, and no except branch of the handler converts
it into a structured response. -/
theorem other_transport_error_not_retried
    (u : Nat → AttemptOutcome) (elapsed : Nat) (k : Nat)
    (hk1 : 1 ≤ k) (hk3 : k ≤ 3)
    (hpre : ∀ j, 1 ≤ j → j < k → shouldRetry (u j) = true)
    (hu : u k = .raise .otherError) :
    shouldRetry (u k) = false ∧
    call_upstream_wrapped u = (.excOtherTransport, k) ∧
    call_upstream u elapsed = none := by
  have hs : shouldRetry (u k) = false := by rw [hu]; rfl
  have hw : call_upstream_wrapped u = (.excOtherTransport, k) := by
    interval_cases k
    · simp_all [call_upstream_wrapped, tenacityGo]
    · have h1 := hpre 1 (by omega) (by omega)
      rcases hu1 : u 1 with r1 | (⟨m1⟩ | _ | _) <;>
        simp_all [shouldRetry, call_upstream_wrapped, tenacityGo]
    · have h1 := hpre 1 (by omega) (by omega)
      have h2 := hpre 2 (by omega) (by omega)
      rcases hu1 : u 1 with r1 | (⟨m1⟩ | _ | _) <;>
        rcases hu2 : u 2 with r2 | (⟨m2⟩ | _ | _) <;>
        simp_all [shouldRetry, call_upstream_wrapped, tenacityGo]
  refine ⟨hs, hw, ?_⟩
  unfold call_upstream
  rw [hw]

/-- Constant upstream behaviour: every attempt raises a transport error
other than ConnectError or ReadTimeout. -/
def uAllOther : Nat → AttemptOutcome := fun _ => .raise .otherError

/-- Witness for C10 at the constant other-transport-error upstream. -/
theorem other_transport_error_not_retried_witness :
    shouldRetry (uAllOther 1) = false ∧
    call_upstream_wrapped uAllOther = (.excOtherTransport, 1) ∧
    call_upstream uAllOther 0 = none :=
  other_transport_error_not_retried uAllOther 0 1 (by decide) (by decide)
    (by intro j hj1 hj2; omega) (by decide)

